import Mathlib

/-!
Shallow embedding of the VMCI socket client (`src/esx_service/vmci/vmci_client.c`).

The C file is straight-line systems code: every syscall (`socket`, `connect`,
`send`, `recv`, `close`) and `calloc` either succeeds or fails, and the client
branches on the return value.  We model each such call by an explicit
environment value (`SysCall`: the return value and the `errno` it leaves
behind), thread `errno` as state, and record every externally visible action
in an event trace, so that claims about "exactly once", "in order", and
"before any I/O" become statements about the trace.
-/

namespace VmciClient

/-- Status results: the C comment says "operations status. 0 is OK" and
`vsock_init` documents "return success (0) or failure (-1)".  The constants
themselves live in `connection_types.h`. -/
def CONN_SUCCESS : Int := 0

/-- Failure status, see `CONN_SUCCESS`. -/
def CONN_FAILURE : Int := -1

/-- `#define MAXBUF 1024 * 1024` — "Safety limit. We do not expect json string > 1M". -/
def MAXBUF : Nat := 1024 * 1024

/-- Modelled from the spec: the 4-byte magic constant shared by both peers is
defined in `connection_types.h`, which is not part of the sources under study;
the spec only requires it to be "a fixed constant shared by both peers"
(section 4.3).  No claim depends on its numeric value, only on equality with
itself, so any fixed 32-bit value is a faithful model. -/
def MAGIC : Nat := 0xbadb00f

/-- Linux errno value used at `errno = ENXIO` in `Vmci_GetReply`. -/
def ENXIO : Nat := 6

/-- Linux errno value used at `errno = EAFNOSUPPORT` in `vsock_init`. -/
def EAFNOSUPPORT : Nat := 97

/-- Linux errno value used at `errno = EBADMSG` in `vsock_get_reply`. -/
def EBADMSG : Nat := 74

/-- `#define VSOCKET_BE_NAME "vsocket"`. -/
def VSOCKET_BE_NAME : String := "vsocket"

/-- `#define ESX_VMCI_CID 2` — ESX host VMCI CID ("address"). -/
def ESX_VMCI_CID : Nat := 2

/-- `#define DUMMY_BE_NAME "dummy"`. -/
def DUMMY_BE_NAME : String := "dummy"

/-- The two transport implementations wired into the `backends` table; stands
for the triple of function pointers (`init_sock`, `release_sock`, `get_reply`)
of a `be_funcs` entry. -/
inductive BackendKind where
  | vsocket
  | dummy
deriving DecidableEq

/-- `struct be_funcs`: the function pointers are represented by `kind`. -/
structure be_funcs where
  shortName : String
  name : String
  kind : BackendKind
deriving DecidableEq

/-- The static `backends[]` table (terminator entry omitted: the C lookup loop
stops there). -/
def backends : List be_funcs :=
  [⟨VSOCKET_BE_NAME, "vSocket Communication Backend v0.1", BackendKind.vsocket⟩,
   ⟨DUMMY_BE_NAME, "Dummy Communication Backend", BackendKind.dummy⟩]

/-- `get_backend`: linear scan of `backends` comparing the argument with each
entry's `shortName` via `strcmp` (exact, case-sensitive match). -/
def get_backend (shortName : String) : Option be_funcs :=
  backends.find? (fun be => shortName == be.shortName)

/-- Externally visible actions of one exchange, in program order.
`initEv`/`releaseEv` mark invocations of a backend's `init_sock`/`release_sock`;
the rest are resource / wire actions: socket creation, `connect`, `close`,
the three `send`s of `vsock_get_reply` (magic word, length word, payload),
the `recv`s (with requested byte count), `calloc` (with requested size) and
`free`. -/
inductive Ev where
  | initEv : Ev
  | socketEv : Ev
  | connectEv (cid port : Nat) : Ev
  | releaseEv : Ev
  | closeEv (sock : Nat) : Ev
  | sendMagicEv : Ev
  | sendLenEv (v : Nat) : Ev
  | sendPayloadEv (n : Nat) : Ev
  | recvEv (n : Nat) : Ev
  | allocEv (size : Nat) : Ev
  | freeEv : Ev
deriving DecidableEq

/-- Outcome of one system call: the return value, and the `errno` value it
leaves behind (`none` = leaves `errno` unchanged, as successful calls do). -/
structure SysCall where
  ret : Int
  errnoAfter : Option Nat
deriving DecidableEq

/-- `errno` after performing call `c` when it was `e` before. -/
def errnoStep (e : Nat) (c : SysCall) : Nat := c.errnoAfter.getD e

/-- Environment for `vsock_init`: the result of `vsock_get_family` (the cached
address family, `-1` on failure), and the outcomes of the `socket`, `connect`
and (on the connect-failure path) `close` calls. -/
structure InitEnv where
  afRet : Int
  socketCall : SysCall
  connectCall : SysCall
  closeCall : SysCall
deriving DecidableEq

/-- Result of an `init_sock` call: status, final `errno`, the socket stored in
`id->sock_id` (when one was created), and the trace of actions. -/
structure InitResult where
  status : Int
  errno : Nat
  sock : Option Nat
  events : List Ev
deriving DecidableEq

/-- `vsock_release`: `close(id->sock_id)` — as a trace fragment. -/
def vsock_release_events (sock : Nat) : List Ev := [Ev.releaseEv, Ev.closeEv sock]

/-- `vsock_init(id, cid, port)`: get the address family (fail with
`EAFNOSUPPORT` if unavailable), create a stream socket (fail propagating the
`socket` errno), `connect` to `(cid, port)`; on connect failure save `errno`,
call `vsock_release` (whose `close` may clobber `errno`), restore the saved
`errno` and fail. -/
def vsock_init (env : InitEnv) (cid port e0 : Nat) : InitResult :=
  if env.afRet = -1 then
    ⟨CONN_FAILURE, EAFNOSUPPORT, none, [Ev.initEv]⟩
  else
    let e1 := errnoStep e0 env.socketCall
    if env.socketCall.ret = -1 then
      ⟨CONN_FAILURE, e1, none, [Ev.initEv, Ev.socketEv]⟩
    else
      let sock := env.socketCall.ret.toNat
      let e2 := errnoStep e1 env.connectCall
      if env.connectCall.ret ≠ 0 then
        let old_errno := e2
        let e3 := errnoStep e2 env.closeCall
        let e4 := old_errno
        ⟨CONN_FAILURE, e4, some sock,
          [Ev.initEv, Ev.socketEv, Ev.connectEv cid port] ++ vsock_release_events sock⟩
      else
        ⟨CONN_SUCCESS, e2, some sock, [Ev.initEv, Ev.socketEv, Ev.connectEv cid port]⟩

/-- Environment for `vsock_get_reply`: outcomes of its three `send` calls, its
three `recv` calls (with the values the peer put into `b` for the magic and
length reads), whether `calloc` succeeded, and the payload bytes the peer sent. -/
structure ReplyEnv where
  sendMagic : SysCall
  sendLen : SysCall
  sendMsg : SysCall
  recvMagic : SysCall
  recvMagicVal : Nat
  recvLen : SysCall
  recvLenVal : Nat
  callocOk : Bool
  recvPayload : SysCall
  payloadData : String
deriving DecidableEq

/-- Result of a `get_reply` call: status, final `errno`, the reply buffer
handed back in `a->buf` (only on success), and the trace. -/
structure ReplyResult where
  status : Int
  errno : Nat
  buf : Option String
  events : List Ev
deriving DecidableEq

/-- `vsock_get_reply(s, r, a)`, literally: send the 4-byte magic, the 4-byte
`r->mlen`, then `mlen` payload bytes — each checked with
`ret == -1 || ret != <requested>`; receive 4 bytes of magic (checked the same
way), compare with `MAGIC` (mismatch: `errno = EBADMSG`, fail); receive the
4-byte length `b`; `calloc(1, b)` (no ceiling check); receive `b` payload
bytes, freeing the buffer and failing on a short read or error. -/
def vsock_get_reply (mlen : Nat) (env : ReplyEnv) (e0 : Nat) : ReplyResult :=
  let e1 := errnoStep e0 env.sendMagic
  if env.sendMagic.ret = -1 ∨ env.sendMagic.ret ≠ 4 then
    ⟨CONN_FAILURE, e1, none, [Ev.sendMagicEv]⟩
  else
    let e2 := errnoStep e1 env.sendLen
    if env.sendLen.ret = -1 ∨ env.sendLen.ret ≠ 4 then
      ⟨CONN_FAILURE, e2, none, [Ev.sendMagicEv, Ev.sendLenEv mlen]⟩
    else
      let e3 := errnoStep e2 env.sendMsg
      if env.sendMsg.ret = -1 ∨ env.sendMsg.ret ≠ (mlen : Int) then
        ⟨CONN_FAILURE, e3, none,
          [Ev.sendMagicEv, Ev.sendLenEv mlen, Ev.sendPayloadEv mlen]⟩
      else
        let e4 := errnoStep e3 env.recvMagic
        if env.recvMagic.ret = -1 ∨ env.recvMagic.ret ≠ 4 then
          ⟨CONN_FAILURE, e4, none,
            [Ev.sendMagicEv, Ev.sendLenEv mlen, Ev.sendPayloadEv mlen, Ev.recvEv 4]⟩
        else if env.recvMagicVal ≠ MAGIC then
          ⟨CONN_FAILURE, EBADMSG, none,
            [Ev.sendMagicEv, Ev.sendLenEv mlen, Ev.sendPayloadEv mlen, Ev.recvEv 4]⟩
        else
          let e5 := errnoStep e4 env.recvLen
          if env.recvLen.ret = -1 ∨ env.recvLen.ret ≠ 4 then
            ⟨CONN_FAILURE, e5, none,
              [Ev.sendMagicEv, Ev.sendLenEv mlen, Ev.sendPayloadEv mlen,
               Ev.recvEv 4, Ev.recvEv 4]⟩
          else
            let b := env.recvLenVal
            if env.callocOk = false then
              ⟨CONN_FAILURE, e5, none,
                [Ev.sendMagicEv, Ev.sendLenEv mlen, Ev.sendPayloadEv mlen,
                 Ev.recvEv 4, Ev.recvEv 4]⟩
            else
              let e6 := errnoStep e5 env.recvPayload
              if env.recvPayload.ret = -1 ∨ env.recvPayload.ret ≠ (b : Int) then
                ⟨CONN_FAILURE, e6, none,
                  [Ev.sendMagicEv, Ev.sendLenEv mlen, Ev.sendPayloadEv mlen,
                   Ev.recvEv 4, Ev.recvEv 4, Ev.allocEv b, Ev.recvEv b, Ev.freeEv]⟩
              else
                ⟨CONN_SUCCESS, e6, some env.payloadData,
                  [Ev.sendMagicEv, Ev.sendLenEv mlen, Ev.sendPayloadEv mlen,
                   Ev.recvEv 4, Ev.recvEv 4, Ev.allocEv b, Ev.recvEv b]⟩

/-- `dummy_init`: prints and returns `CONN_SUCCESS`; touches no resource and
never fails. -/
def dummy_init (e0 : Nat) : InitResult :=
  ⟨CONN_SUCCESS, e0, none, [Ev.initEv]⟩

/-- `dummy_release`: prints only — no resource action. -/
def dummy_release_events : List Ev := [Ev.releaseEv]

/-- `dummy_get_reply`: prints the request, sets `a->buf = strdup("none")` and
returns `CONN_SUCCESS`, regardless of the request. -/
def dummy_get_reply (e0 : Nat) : ReplyResult :=
  ⟨CONN_SUCCESS, e0, some "none", []⟩

/-- Environment for a whole exchange. -/
structure HostEnv where
  init : InitEnv
  reply : ReplyEnv
deriving DecidableEq

/-- Dispatch of `be->init_sock`. -/
def be_init_sock (be : BackendKind) (env : InitEnv) (cid port e0 : Nat) : InitResult :=
  match be with
  | BackendKind.vsocket => vsock_init env cid port e0
  | BackendKind.dummy => dummy_init e0

/-- Dispatch of `be->get_reply`. -/
def be_get_reply (be : BackendKind) (mlen : Nat) (env : ReplyEnv) (e0 : Nat) : ReplyResult :=
  match be with
  | BackendKind.vsocket => vsock_get_reply mlen env e0
  | BackendKind.dummy => dummy_get_reply e0

/-- Dispatch of `be->release_sock` (as a trace fragment). -/
def be_release_sock (be : BackendKind) (sock : Option Nat) : List Ev :=
  match be with
  | BackendKind.vsocket => vsock_release_events (sock.getD 0)
  | BackendKind.dummy => dummy_release_events

/-- Result of `host_request` / `Vmci_GetReply`. -/
structure CallResult where
  status : Int
  errno : Nat
  buf : Option String
  events : List Ev
deriving DecidableEq

/-- `host_request(be, req, ans, cid, port)`: call `be->init_sock`; on failure
return its status at once (no release); otherwise call `be->get_reply`, then
`be->release_sock` unconditionally, and return `get_reply`'s status. -/
def host_request (be : BackendKind) (mlen : Nat) (henv : HostEnv)
    (cid port e0 : Nat) : CallResult :=
  let i := be_init_sock be henv.init cid port e0
  if i.status ≠ 0 then
    ⟨i.status, i.errno, none, i.events⟩
  else
    let r := be_get_reply be mlen henv.reply i.errno
    ⟨r.status, r.errno, r.buf, i.events ++ r.events ++ be_release_sock be i.sock⟩

/-- `strnlen(s, maxlen)`: length of `s` up to at most `maxlen`. -/
def strnlen (s : String) (maxlen : Nat) : Nat := min s.length maxlen

/-- `struct be_request`: `mlen` (length including the trailing NUL) and the
message string. -/
structure be_request where
  mlen : Nat
  msg : String

/-- The request built by `Vmci_GetReply`:
`req.mlen = strnlen(json_request, MAXBUF) + 1; req.msg = json_request`. -/
def build_request (json_request : String) : be_request :=
  ⟨strnlen json_request MAXBUF + 1, json_request⟩

/-- `Vmci_GetReply(port, json_request, be_name, ans)`: look up the backend
(failing with `errno = ENXIO` when unknown, before anything else), build the
request, and run `host_request` against `ESX_VMCI_CID` and the given port. -/
def Vmci_GetReply (port : Nat) (json_request : String) (be_name : String)
    (henv : HostEnv) (e0 : Nat) : CallResult :=
  match get_backend be_name with
  | none => ⟨CONN_FAILURE, ENXIO, none, []⟩
  | some be =>
    let req := build_request json_request
    host_request be.kind req.mlen henv ESX_VMCI_CID port e0

/-- Number of `release_sock` invocations recorded in a trace. -/
def countReleases (l : List Ev) : Nat :=
  l.countP (fun e => match e with | Ev.releaseEv => true | _ => false)

/-- Number of `close` calls recorded in a trace. -/
def countCloses (l : List Ev) : Nat :=
  l.countP (fun e => match e with | Ev.closeEv _ => true | _ => false)

/-- Resource actions: socket creation, close, allocation, free. -/
def isResourceEv : Ev → Bool
  | Ev.socketEv => true
  | Ev.closeEv _ => true
  | Ev.allocEv _ => true
  | Ev.freeEv => true
  | _ => false

/-- A concrete environment in which `vsock_init` succeeds: the address family
resolves to 40, `socket` returns fd 3, `connect` returns 0. -/
def okInitEnv : InitEnv := ⟨40, ⟨3, none⟩, ⟨0, none⟩, ⟨0, none⟩⟩

/-- A concrete environment in which every step of `vsock_get_reply` succeeds
for a request of length `mlen`, with the peer declaring a reply of length `b`. -/
def okReplyEnv (mlen b : Nat) : ReplyEnv :=
  ⟨⟨4, none⟩, ⟨4, none⟩, ⟨(mlen : Int), none⟩, ⟨4, none⟩, MAGIC,
   ⟨4, none⟩, b, true, ⟨(b : Int), none⟩, "ok"⟩

/-- An all-success exchange environment for a request whose `mlen` is
`MAXBUF + 1` (the clamped length of an over-long request string). -/
def bigHostEnv : HostEnv := ⟨okInitEnv, okReplyEnv (MAXBUF + 1) 4⟩

/-- A request string one byte longer than the `MAXBUF` safety limit. -/
def bigString : String := String.mk (List.replicate (MAXBUF + 1) 'a')

/-! ## Theorems -/

/-- The length of `bigString` exceeds `MAXBUF` by one. -/
theorem bigString_length : bigString.length = MAXBUF + 1 := by
  show (List.replicate (MAXBUF + 1) 'a').length = MAXBUF + 1
  simp

/-- Projection of the request built by `Vmci_GetReply`. -/
theorem build_request_mlen (s : String) :
    (build_request s).mlen = strnlen s MAXBUF + 1 := rfl

/-- Claim C10: `Vmci_GetReply` computes the request length field as
`strnlen(json_request, MAXBUF) + 1`, i.e. the string length truncated at
`MAXBUF` plus one, so `mlen` never exceeds `2 ^ 20 + 1` however long the
input string is: oversized input yields a clamped length field. -/
theorem C10_request_length_clamped (s : String) :
    (build_request s).mlen = min s.length MAXBUF + 1 ∧
    (build_request s).mlen ≤ 2 ^ 20 + 1 := by
  refine ⟨rfl, ?_⟩
  have h : min s.length MAXBUF ≤ MAXBUF := Nat.min_le_right _ _
  simp only [build_request, strnlen, MAXBUF] at *
  omega

/-- Claim C9: an exchange over the dummy backend succeeds for every payload,
every port and every environment, returning the fixed canned reply `"none"`;
its `init` always succeeds, and the whole exchange performs no resource
action (its `release` in particular performs none). -/
theorem C9_dummy_fixed_reply (port e0 : Nat) (s : String) (henv : HostEnv) :
    (Vmci_GetReply port s DUMMY_BE_NAME henv e0).status = CONN_SUCCESS ∧
    (Vmci_GetReply port s DUMMY_BE_NAME henv e0).buf = some "none" ∧
    (Vmci_GetReply port s DUMMY_BE_NAME henv e0).events = [Ev.initEv, Ev.releaseEv] ∧
    (be_init_sock BackendKind.dummy henv.init ESX_VMCI_CID port e0).status = CONN_SUCCESS ∧
    dummy_release_events.all (fun e => !isResourceEv e) = true ∧
    (Vmci_GetReply port s DUMMY_BE_NAME henv e0).events.all
      (fun e => !isResourceEv e) = true :=
  ⟨rfl, rfl, rfl, rfl, rfl, rfl⟩

/-- Claim C5: any backend name other than the two registered short names
resolves to nothing, and `Vmci_GetReply` then fails with `errno = ENXIO` and
an empty trace — no init, no connection attempt, no side effect at all. -/
theorem C5_unknown_backend_no_init (name : String) (port e0 : Nat) (s : String)
    (henv : HostEnv)
    (h1 : name ≠ VSOCKET_BE_NAME) (h2 : name ≠ DUMMY_BE_NAME) :
    get_backend name = none ∧
    Vmci_GetReply port s name henv e0 = ⟨CONN_FAILURE, ENXIO, none, []⟩ := by
  have hg : get_backend name = none := by
    simp only [get_backend, backends, List.find?]
    have b1 : (name == VSOCKET_BE_NAME) = false := beq_false_of_ne h1
    have b2 : (name == DUMMY_BE_NAME) = false := beq_false_of_ne h2
    simp [b1, b2]
  exact ⟨hg, by rw [Vmci_GetReply, hg]⟩

/-- Claim C5, witness: the name `"nope"` is not registered and fails as above. -/
theorem C5_witness :
    get_backend "nope" = none ∧
    Vmci_GetReply 1234 "req" "nope" bigHostEnv 0 = ⟨CONN_FAILURE, ENXIO, none, []⟩ :=
  C5_unknown_backend_no_init "nope" 1234 0 "req" bigHostEnv (by decide) (by decide)

/-- Claim C8: when `vsock_init` fails, it returns `CONN_FAILURE` and preserves
the system error at the point of failure: `EAFNOSUPPORT` when the address
family is unavailable; the `errno` of the failed `socket` call; and on connect
failure, the `errno` of the failed `connect` call — even though the socket is
closed (exactly once) on that path and the `close` may overwrite `errno`, the
saved value is restored. -/
theorem C8_init_failure_preserves_errno (cid port e0 : Nat) (env : InitEnv) :
    (env.afRet = -1 →
      vsock_init env cid port e0 = ⟨CONN_FAILURE, EAFNOSUPPORT, none, [Ev.initEv]⟩) ∧
    (env.afRet ≠ -1 → env.socketCall.ret = -1 →
      (vsock_init env cid port e0).status = CONN_FAILURE ∧
      (vsock_init env cid port e0).errno = errnoStep e0 env.socketCall) ∧
    (env.afRet ≠ -1 → env.socketCall.ret ≠ -1 → env.connectCall.ret ≠ 0 →
      (vsock_init env cid port e0).status = CONN_FAILURE ∧
      (vsock_init env cid port e0).errno =
        errnoStep (errnoStep e0 env.socketCall) env.connectCall ∧
      countCloses (vsock_init env cid port e0).events = 1) := by
  refine ⟨fun ha => ?_, fun ha hs => ?_, fun ha hs hc => ?_⟩
  · simp [vsock_init, ha]
  · simp [vsock_init, ha, hs]
  · simp only [vsock_init, if_neg ha, if_neg hs, if_pos hc]
    exact ⟨trivial, trivial, rfl⟩

/-- Claim C8, witness: family 40, fd 3, `connect` fails with errno 111 and the
subsequent `close` sets errno 9; `vsock_init` still reports errno 111. -/
theorem C8_witness :
    (vsock_init ⟨40, ⟨3, none⟩, ⟨-1, some 111⟩, ⟨0, some 9⟩⟩ 2 1234 0).status = CONN_FAILURE ∧
    (vsock_init ⟨40, ⟨3, none⟩, ⟨-1, some 111⟩, ⟨0, some 9⟩⟩ 2 1234 0).errno = 111 ∧
    countCloses (vsock_init ⟨40, ⟨3, none⟩, ⟨-1, some 111⟩, ⟨0, some 9⟩⟩ 2 1234 0).events = 1 :=
  (C8_init_failure_preserves_errno 2 1234 0 ⟨40, ⟨3, none⟩, ⟨-1, some 111⟩, ⟨0, some 9⟩⟩).2.2
    (by decide) (by decide) (by decide)

/-- Claim C4: if the three sends succeed and the 4 magic bytes are received
but differ from `MAGIC`, `vsock_get_reply` fails (`CONN_FAILURE`, distinct
from `CONN_SUCCESS`) with the protocol-error code `EBADMSG` attached, and its
trace ends right after the magic read: no further receive, no
resynchronization, no retry on that connection. -/
theorem C4_protocol_mismatch (mlen e0 : Nat) (env : ReplyEnv)
    (h1 : env.sendMagic.ret = 4) (h2 : env.sendLen.ret = 4)
    (h3 : env.sendMsg.ret = (mlen : Int)) (h4 : env.recvMagic.ret = 4)
    (h5 : env.recvMagicVal ≠ MAGIC) :
    (vsock_get_reply mlen env e0).status = CONN_FAILURE ∧
    (vsock_get_reply mlen env e0).errno = EBADMSG ∧
    (vsock_get_reply mlen env e0).events =
      [Ev.sendMagicEv, Ev.sendLenEv mlen, Ev.sendPayloadEv mlen, Ev.recvEv 4] ∧
    CONN_FAILURE ≠ CONN_SUCCESS := by
  have hv : vsock_get_reply mlen env e0 =
      ⟨CONN_FAILURE, EBADMSG, none,
        [Ev.sendMagicEv, Ev.sendLenEv mlen, Ev.sendPayloadEv mlen, Ev.recvEv 4]⟩ := by
    simp [vsock_get_reply, h1, h2, h3, h4, h5]
  refine ⟨by rw [hv], by rw [hv], by rw [hv], by decide⟩

/-- Claim C4, witness: request of length 17, peer answers with magic 0. -/
theorem C4_witness :
    (vsock_get_reply 17 ⟨⟨4, none⟩, ⟨4, none⟩, ⟨17, none⟩, ⟨4, none⟩, 0,
        ⟨4, none⟩, 5, true, ⟨5, none⟩, "x"⟩ 0).status = CONN_FAILURE ∧
    (vsock_get_reply 17 ⟨⟨4, none⟩, ⟨4, none⟩, ⟨17, none⟩, ⟨4, none⟩, 0,
        ⟨4, none⟩, 5, true, ⟨5, none⟩, "x"⟩ 0).errno = EBADMSG ∧
    (vsock_get_reply 17 ⟨⟨4, none⟩, ⟨4, none⟩, ⟨17, none⟩, ⟨4, none⟩, 0,
        ⟨4, none⟩, 5, true, ⟨5, none⟩, "x"⟩ 0).events =
      [Ev.sendMagicEv, Ev.sendLenEv 17, Ev.sendPayloadEv 17, Ev.recvEv 4] ∧
    CONN_FAILURE ≠ CONN_SUCCESS :=
  C4_protocol_mismatch 17 0 _ rfl rfl rfl rfl (by decide)

/-- Claim C6: `vsock_get_reply` performs its writes in the order magic,
length, payload; a short write or error on the first leaves exactly one write
in the trace and fails; on the second, exactly two; on the third, exactly
three — never a further write after a failed one — and when all three
succeed, the trace begins with exactly these three writes. -/
theorem C6_send_order_and_failfast (mlen e0 : Nat) (env : ReplyEnv) :
    ((env.sendMagic.ret = -1 ∨ env.sendMagic.ret ≠ 4) →
      (vsock_get_reply mlen env e0).status = CONN_FAILURE ∧
      (vsock_get_reply mlen env e0).events = [Ev.sendMagicEv]) ∧
    (env.sendMagic.ret = 4 → (env.sendLen.ret = -1 ∨ env.sendLen.ret ≠ 4) →
      (vsock_get_reply mlen env e0).status = CONN_FAILURE ∧
      (vsock_get_reply mlen env e0).events = [Ev.sendMagicEv, Ev.sendLenEv mlen]) ∧
    (env.sendMagic.ret = 4 → env.sendLen.ret = 4 →
      (env.sendMsg.ret = -1 ∨ env.sendMsg.ret ≠ (mlen : Int)) →
      (vsock_get_reply mlen env e0).status = CONN_FAILURE ∧
      (vsock_get_reply mlen env e0).events =
        [Ev.sendMagicEv, Ev.sendLenEv mlen, Ev.sendPayloadEv mlen]) ∧
    (env.sendMagic.ret = 4 → env.sendLen.ret = 4 → env.sendMsg.ret = (mlen : Int) →
      (vsock_get_reply mlen env e0).events.take 3 =
        [Ev.sendMagicEv, Ev.sendLenEv mlen, Ev.sendPayloadEv mlen]) := by
  refine ⟨fun h1 => ?_, fun h1 h2 => ?_, fun h1 h2 h3 => ?_, fun h1 h2 h3 => ?_⟩
  · constructor <;> simp [vsock_get_reply, if_pos h1]
  · constructor <;> simp [vsock_get_reply, h1, if_pos h2]
  · constructor <;> simp [vsock_get_reply, h1, h2, if_pos h3]
  · simp only [vsock_get_reply, h1, h2, h3]
    norm_num
    repeat' split
    all_goals rfl

/-- Claim C6, witness: the length write reports a short write (2 of 4 bytes):
the exchange fails and nothing is written after the length write. -/
theorem C6_witness :
    (vsock_get_reply 17 ⟨⟨4, none⟩, ⟨2, none⟩, ⟨17, none⟩, ⟨4, none⟩, MAGIC,
        ⟨4, none⟩, 5, true, ⟨5, none⟩, "x"⟩ 0).status = CONN_FAILURE ∧
    (vsock_get_reply 17 ⟨⟨4, none⟩, ⟨2, none⟩, ⟨17, none⟩, ⟨4, none⟩, MAGIC,
        ⟨4, none⟩, 5, true, ⟨5, none⟩, "x"⟩ 0).events =
      [Ev.sendMagicEv, Ev.sendLenEv 17] :=
  (C6_send_order_and_failfast 17 0 _).2.1 rfl (by decide)

/-- Claim C7: when every step up to the payload read succeeds but the payload
read is short or errors, `vsock_get_reply` fails, hands no buffer to the
caller, and its trace shows the allocated reply buffer being freed
(`allocEv` followed by `freeEv`) rather than returned. -/
theorem C7_short_payload_read_discards_buffer (mlen e0 : Nat) (env : ReplyEnv)
    (h1 : env.sendMagic.ret = 4) (h2 : env.sendLen.ret = 4)
    (h3 : env.sendMsg.ret = (mlen : Int)) (h4 : env.recvMagic.ret = 4)
    (h5 : env.recvMagicVal = MAGIC) (h6 : env.recvLen.ret = 4)
    (h7 : env.callocOk = true)
    (h8 : env.recvPayload.ret = -1 ∨ env.recvPayload.ret ≠ (env.recvLenVal : Int)) :
    (vsock_get_reply mlen env e0).status = CONN_FAILURE ∧
    (vsock_get_reply mlen env e0).buf = none ∧
    (vsock_get_reply mlen env e0).events =
      [Ev.sendMagicEv, Ev.sendLenEv mlen, Ev.sendPayloadEv mlen,
       Ev.recvEv 4, Ev.recvEv 4, Ev.allocEv env.recvLenVal,
       Ev.recvEv env.recvLenVal, Ev.freeEv] := by
  have hv : vsock_get_reply mlen env e0 =
      ⟨CONN_FAILURE, errnoStep (errnoStep (errnoStep (errnoStep (errnoStep
          (errnoStep e0 env.sendMagic) env.sendLen) env.sendMsg) env.recvMagic)
          env.recvLen) env.recvPayload, none,
        [Ev.sendMagicEv, Ev.sendLenEv mlen, Ev.sendPayloadEv mlen,
         Ev.recvEv 4, Ev.recvEv 4, Ev.allocEv env.recvLenVal,
         Ev.recvEv env.recvLenVal, Ev.freeEv]⟩ := by
    simp [vsock_get_reply, h1, h2, h3, h4, h5, h6, h7, if_pos h8]
  exact ⟨by rw [hv], by rw [hv], by rw [hv]⟩

/-- Claim C7, witness: the peer declares 5 reply bytes but only 3 arrive; the
exchange fails and the trace shows the 5-byte buffer allocated then freed. -/
theorem C7_witness :
    (vsock_get_reply 17 ⟨⟨4, none⟩, ⟨4, none⟩, ⟨17, none⟩, ⟨4, none⟩, MAGIC,
        ⟨4, none⟩, 5, true, ⟨3, none⟩, "x"⟩ 0).status = CONN_FAILURE ∧
    (vsock_get_reply 17 ⟨⟨4, none⟩, ⟨4, none⟩, ⟨17, none⟩, ⟨4, none⟩, MAGIC,
        ⟨4, none⟩, 5, true, ⟨3, none⟩, "x"⟩ 0).buf = none ∧
    (vsock_get_reply 17 ⟨⟨4, none⟩, ⟨4, none⟩, ⟨17, none⟩, ⟨4, none⟩, MAGIC,
        ⟨4, none⟩, 5, true, ⟨3, none⟩, "x"⟩ 0).events =
      [Ev.sendMagicEv, Ev.sendLenEv 17, Ev.sendPayloadEv 17,
       Ev.recvEv 4, Ev.recvEv 4, Ev.allocEv 5, Ev.recvEv 5, Ev.freeEv] :=
  C7_short_payload_read_discards_buffer 17 0 _ rfl rfl rfl rfl rfl rfl rfl (by decide)

/-- `countReleases` distributes over trace concatenation. -/
theorem countReleases_append (a b : List Ev) :
    countReleases (a ++ b) = countReleases a + countReleases b := by
  simp [countReleases]

/-- `countCloses` distributes over trace concatenation. -/
theorem countCloses_append (a b : List Ev) :
    countCloses (a ++ b) = countCloses a + countCloses b := by
  simp [countCloses]

/-- The codec itself never releases or closes the connection: no branch of
`vsock_get_reply` records a `release_sock` invocation or a `close`. -/
theorem vsock_get_reply_no_release_no_close (mlen e0 : Nat) (env : ReplyEnv) :
    countReleases (vsock_get_reply mlen env e0).events = 0 ∧
    countCloses (vsock_get_reply mlen env e0).events = 0 := by
  simp only [vsock_get_reply]
  repeat' split
  all_goals exact ⟨rfl, rfl⟩

/-- Every branch of `vsock_get_reply` records the magic write first: the codec
always attempts the first send. -/
theorem vsock_get_reply_sends_magic (mlen e0 : Nat) (env : ReplyEnv) :
    Ev.sendMagicEv ∈ (vsock_get_reply mlen env e0).events := by
  simp only [vsock_get_reply]
  repeat' split
  all_goals simp

/-- `vsock_init` succeeds exactly when the address family resolves, `socket`
succeeds and `connect` returns 0. -/
theorem vsock_init_status_eq_zero_iff (env : InitEnv) (cid port e0 : Nat) :
    (vsock_init env cid port e0).status = 0 ↔
      env.afRet ≠ -1 ∧ env.socketCall.ret ≠ -1 ∧ env.connectCall.ret = 0 := by
  by_cases ha : env.afRet = -1 <;> by_cases hs : env.socketCall.ret = -1 <;>
    by_cases hc : env.connectCall.ret = 0 <;>
    simp [vsock_init, ha, hs, hc, CONN_SUCCESS, CONN_FAILURE]

/-- Value of a successful `vsock_init`. -/
theorem vsock_init_success_events (env : InitEnv) (cid port e0 : Nat)
    (ha : env.afRet ≠ -1) (hs : env.socketCall.ret ≠ -1)
    (hc : env.connectCall.ret = 0) :
    vsock_init env cid port e0 =
      ⟨CONN_SUCCESS, errnoStep (errnoStep e0 env.socketCall) env.connectCall,
       some env.socketCall.ret.toNat,
       [Ev.initEv, Ev.socketEv, Ev.connectEv cid port]⟩ := by
  simp [vsock_init, ha, hs, hc]

/-- On a successful connection, `host_request` over the real transport is the
codec result together with the init trace, the codec trace, and the final
unconditional release. -/
theorem host_request_vsocket_success (mlen : Nat) (henv : HostEnv) (cid port e0 : Nat)
    (ha : henv.init.afRet ≠ -1) (hs : henv.init.socketCall.ret ≠ -1)
    (hc : henv.init.connectCall.ret = 0) :
    host_request BackendKind.vsocket mlen henv cid port e0 =
      ⟨(vsock_get_reply mlen henv.reply
          (errnoStep (errnoStep e0 henv.init.socketCall) henv.init.connectCall)).status,
       (vsock_get_reply mlen henv.reply
          (errnoStep (errnoStep e0 henv.init.socketCall) henv.init.connectCall)).errno,
       (vsock_get_reply mlen henv.reply
          (errnoStep (errnoStep e0 henv.init.socketCall) henv.init.connectCall)).buf,
       [Ev.initEv, Ev.socketEv, Ev.connectEv cid port] ++
         (vsock_get_reply mlen henv.reply
           (errnoStep (errnoStep e0 henv.init.socketCall) henv.init.connectCall)).events ++
         vsock_release_events henv.init.socketCall.ret.toNat⟩ := by
  have hi := vsock_init_success_events henv.init cid port e0 ha hs hc
  simp only [host_request, be_init_sock, be_get_reply, be_release_sock, hi]
  norm_num [CONN_SUCCESS]

/-- The trace component of `host_request_vsocket_success`. -/
theorem host_request_vsocket_success_events (mlen : Nat) (henv : HostEnv)
    (cid port e0 : Nat)
    (ha : henv.init.afRet ≠ -1) (hs : henv.init.socketCall.ret ≠ -1)
    (hc : henv.init.connectCall.ret = 0) :
    (host_request BackendKind.vsocket mlen henv cid port e0).events =
      [Ev.initEv, Ev.socketEv, Ev.connectEv cid port] ++
        (vsock_get_reply mlen henv.reply
          (errnoStep (errnoStep e0 henv.init.socketCall) henv.init.connectCall)).events ++
        vsock_release_events henv.init.socketCall.ret.toNat := by
  rw [host_request_vsocket_success mlen henv cid port e0 ha hs hc]

/-- Claim C3: whenever `init_sock` succeeds, `host_request` invokes
`release_sock` exactly once before returning, on every exit path of the
exchange (whatever `get_reply` does); for the real transport this closes the
socket exactly once; and when `vsock_init` itself fails, the socket — if one
was created — is closed exactly once (by `vsock_init`'s own cleanup), and
never otherwise. -/
theorem C3_release_exactly_once (be : BackendKind) (mlen : Nat) (henv : HostEnv)
    (cid port e0 : Nat) :
    ((be_init_sock be henv.init cid port e0).status = 0 →
      countReleases (host_request be mlen henv cid port e0).events = 1) ∧
    ((be_init_sock BackendKind.vsocket henv.init cid port e0).status = 0 →
      countCloses (host_request BackendKind.vsocket mlen henv cid port e0).events = 1) ∧
    ((be_init_sock BackendKind.vsocket henv.init cid port e0).status ≠ 0 →
      countCloses (host_request BackendKind.vsocket mlen henv cid port e0).events =
        if henv.init.afRet ≠ -1 ∧ henv.init.socketCall.ret ≠ -1 then 1 else 0) := by
  refine ⟨?_, ?_, ?_⟩
  · intro h0
    cases be with
    | dummy => rfl
    | vsocket =>
      obtain ⟨ha, hs, hc⟩ := (vsock_init_status_eq_zero_iff henv.init cid port e0).1 h0
      rw [host_request_vsocket_success_events mlen henv cid port e0 ha hs hc,
        countReleases_append, countReleases_append,
        (vsock_get_reply_no_release_no_close mlen
          (errnoStep (errnoStep e0 henv.init.socketCall) henv.init.connectCall)
          henv.reply).1]
      rfl
  · intro h0
    obtain ⟨ha, hs, hc⟩ := (vsock_init_status_eq_zero_iff henv.init cid port e0).1 h0
    rw [host_request_vsocket_success_events mlen henv cid port e0 ha hs hc,
      countCloses_append, countCloses_append,
      (vsock_get_reply_no_release_no_close mlen
        (errnoStep (errnoStep e0 henv.init.socketCall) henv.init.connectCall)
        henv.reply).2]
    rfl
  · intro hne
    by_cases ha : henv.init.afRet = -1
    · have hi : vsock_init henv.init cid port e0 =
          ⟨CONN_FAILURE, EAFNOSUPPORT, none, [Ev.initEv]⟩ := by simp [vsock_init, ha]
      simp only [host_request, be_init_sock, hi]
      norm_num [CONN_FAILURE]
      simp [countCloses, ha]
    · by_cases hs : henv.init.socketCall.ret = -1
      · have hi : vsock_init henv.init cid port e0 =
            ⟨CONN_FAILURE, errnoStep e0 henv.init.socketCall, none,
             [Ev.initEv, Ev.socketEv]⟩ := by simp [vsock_init, ha, hs]
        simp only [host_request, be_init_sock, hi]
        norm_num [CONN_FAILURE]
        simp [countCloses, hs]
      · by_cases hc : henv.init.connectCall.ret = 0
        · exact absurd ((vsock_init_status_eq_zero_iff henv.init cid port e0).2
            ⟨ha, hs, hc⟩) hne
        · have hi : vsock_init henv.init cid port e0 =
              ⟨CONN_FAILURE, errnoStep (errnoStep e0 henv.init.socketCall)
                 henv.init.connectCall,
               some henv.init.socketCall.ret.toNat,
               [Ev.initEv, Ev.socketEv, Ev.connectEv cid port] ++
                 vsock_release_events henv.init.socketCall.ret.toNat⟩ := by
            simp only [vsock_init, if_neg ha, if_neg hs, if_pos hc]
          simp only [host_request, be_init_sock, hi]
          norm_num [CONN_FAILURE]
          simp [countCloses, vsock_release_events, ha, hs]

/-- Claim C3, witness: over the real transport with a successful connection
and an all-success exchange, the trace shows exactly one release. -/
theorem C3_witness :
    countReleases
      (host_request BackendKind.vsocket 5 ⟨okInitEnv, okReplyEnv 5 4⟩ 2 1234 0).events = 1 :=
  (C3_release_exactly_once BackendKind.vsocket 5 ⟨okInitEnv, okReplyEnv 5 4⟩ 2 1234 0).1
    (by decide)

/-- Claim C1 is refuted by the code: with all sends successful and a valid
magic, a peer-declared reply length of `2 * MAXBUF` — twice the safety
ceiling — is passed straight to `calloc`: the call succeeds and the trace
shows a buffer of that oversized length being allocated; no ceiling check and
no `OversizedMessage`-style failure precedes the allocation. -/
theorem C1_oversized_reply_is_allocated :
    MAXBUF < 2 * MAXBUF ∧
    (vsock_get_reply 17 (okReplyEnv 17 (2 * MAXBUF)) 0).status = CONN_SUCCESS ∧
    Ev.allocEv (2 * MAXBUF) ∈ (vsock_get_reply 17 (okReplyEnv 17 (2 * MAXBUF)) 0).events := by
  refine ⟨by norm_num [MAXBUF], ?_, ?_⟩ <;> decide

/-- Claim C2 is refuted by the code (counterexample): for a request string one
byte longer than `MAXBUF`, `Vmci_GetReply` over the real transport does not
fail at all — with a cooperative peer the exchange succeeds, and the trace
shows network I/O (the magic write) being performed. -/
theorem C2_counterexample_oversized_request_not_rejected :
    MAXBUF < bigString.length ∧
    (Vmci_GetReply 1234 bigString VSOCKET_BE_NAME bigHostEnv 0).status = CONN_SUCCESS ∧
    Ev.sendMagicEv ∈ (Vmci_GetReply 1234 bigString VSOCKET_BE_NAME bigHostEnv 0).events := by
  have hmlen : (build_request bigString).mlen = MAXBUF + 1 := by
    rw [build_request_mlen, strnlen, bigString_length]
    omega
  have hv : Vmci_GetReply 1234 bigString VSOCKET_BE_NAME bigHostEnv 0 =
      host_request BackendKind.vsocket (build_request bigString).mlen bigHostEnv
        ESX_VMCI_CID 1234 0 := rfl
  refine ⟨by rw [bigString_length]; exact Nat.lt_succ_self MAXBUF, ?_, ?_⟩ <;>
    rw [hv, hmlen] <;> decide

/-- Claim C2 as amended: an over-long request is not rejected; its length
field is clamped to `MAXBUF + 1` and, whenever the connection opens, the
exchange proceeds to the wire (the magic write occurs) instead of failing
before network I/O. -/
theorem C2_amended_oversized_request_clamped (s : String) (port e0 : Nat)
    (henv : HostEnv) (hbig : MAXBUF < s.length) :
    (build_request s).mlen = MAXBUF + 1 ∧
    ((be_init_sock BackendKind.vsocket henv.init ESX_VMCI_CID port e0).status = 0 →
      Ev.sendMagicEv ∈ (Vmci_GetReply port s VSOCKET_BE_NAME henv e0).events) := by
  have hm : (build_request s).mlen = MAXBUF + 1 := by
    have hmm : min s.length MAXBUF = MAXBUF := min_eq_right hbig.le
    simp [build_request, strnlen, hmm]
  refine ⟨hm, fun h0 => ?_⟩
  have hv : Vmci_GetReply port s VSOCKET_BE_NAME henv e0 =
      host_request BackendKind.vsocket (build_request s).mlen henv
        ESX_VMCI_CID port e0 := rfl
  rw [hv]
  obtain ⟨ha, hs, hc⟩ :=
    (vsock_init_status_eq_zero_iff henv.init ESX_VMCI_CID port e0).1 h0
  rw [host_request_vsocket_success_events (build_request s).mlen henv
    ESX_VMCI_CID port e0 ha hs hc]
  refine List.mem_append.2 (Or.inl (List.mem_append.2 (Or.inr ?_)))
  exact vsock_get_reply_sends_magic _ _ henv.reply

/-- Claim C2 as amended, witness: `bigString` exceeds `MAXBUF`, its length
field is clamped, and with a successful connection the magic write occurs. -/
theorem C2_amended_witness :
    (build_request bigString).mlen = MAXBUF + 1 ∧
    Ev.sendMagicEv ∈ (Vmci_GetReply 1234 bigString VSOCKET_BE_NAME bigHostEnv 0).events := by
  have h := C2_amended_oversized_request_clamped bigString 1234 0 bigHostEnv
    (by rw [bigString_length]; exact Nat.lt_succ_self MAXBUF)
  exact ⟨h.1, h.2 (by decide)⟩

end VmciClient
